import Mathlib

/-!
Verification of the geospatial core of the datasp-dados repository:
`src/core/geo/interpolation.py` (areal_weighted_interpolation) and
`src/core/urbanismo/urban_parks_area.py` (prepare_tracts, prepare_risk_area).

Modelling conventions (shallow embedding of the pandas / geopandas code):
- A polygon geometry is modelled as a finite union of unit grid cells,
  `Finset (ℤ × ℤ)`; planar area is the cell count, geometric intersection,
  difference and union are the set operations, and an empty set is the empty
  geometry dropped by `overlay(..., keep_geom_type=True)`.
- A data frame (`GeoDataFrame`) is an explicit list of column names plus a
  list of rows, each row an association list from column name to cell value.
  The geometry column is named "geometry" (the geopandas default used
  throughout the repository).
- Numbers are modelled as ℚ / ℤ; `DataFrame.round(0)` is numpy rounding,
  which is round-half-to-even, and `astype(int)` truncates toward zero
  (exact after rounding).
- pandas raises `ValueError` when a DataFrame is used in a boolean context
  (`if df:`); this is modelled by `pyTruthyGdf` returning an error for any
  present frame and `false` only for an absent (`None`) argument.
- In-place effects visible to the caller (the missing defensive copy in
  `prepare_tracts`, the `list.append` in `prepare_risk_area`) are modelled by
  returning the post-call state of the mutated argument alongside the result.
-/

/-- A cell value of a data frame: missing (NaN), string, integer, float
(modelled as ℚ) or geometry (a polygon as a finite set of unit grid cells). -/
inductive Val where
  | na : Val
  | str : String → Val
  | int : ℤ → Val
  | rat : ℚ → Val
  | geom : Finset (ℤ × ℤ) → Val
deriving DecidableEq

/-- Numeric reading of a cell, used by arithmetic column operations. -/
def Val.toRat : Val → ℚ
  | .int n => (n : ℚ)
  | .rat q => q
  | _ => 0

/-- Python str() of a cell value, as used by `.astype(str)`. -/
def Val.pyStr : Val → String
  | .na => "nan"
  | .str s => s
  | .int n => toString n
  | .rat q => toString q
  | .geom _ => "geometry"

/-- Whether a cell holds a string. -/
def Val.isStr : Val → Bool
  | .str _ => true
  | _ => false

/-- A data-frame row: an association list from column name to cell value. -/
abbrev Row := List (String × Val)

/-- The column names carried by a row. -/
def rowNames (r : Row) : List String := r.map Prod.fst

/-- First cell of a row under a given column name, if any. -/
def rowFind (r : Row) (c : String) : Option Val :=
  (r.find? (fun p => p.1 = c)).map Prod.snd

/-- Value of a row at a column; missing cells read as NaN. -/
def getCell (r : Row) (c : String) : Val :=
  (rowFind r c).getD Val.na

/-- Write a cell: replace the first cell named `c`, or append one. -/
def setCell : Row → String → Val → Row
  | [], c, v => [(c, v)]
  | p :: r, c, v => if p.1 = c then (c, v) :: r else p :: setCell r c v

/-- The geometry of a row (the cell of the "geometry" column). -/
def rowGeom (r : Row) : Finset (ℤ × ℤ) :=
  match getCell r "geometry" with
  | .geom g => g
  | _ => (∅ : Finset (ℤ × ℤ))

/-- Planar area of the geometry of a row, as produced by the `.area`
accessor of geopandas: the cell count of the polygon. -/
def rowAreaVal (r : Row) : Val := .rat (rowGeom r).card

/-- A GeoDataFrame: explicit column-name list plus rows. -/
structure GeoDataFrame where
  cols : List String
  rows : List Row
deriving DecidableEq

deriving instance DecidableEq for Except

/-- Column assignment `df[c] = f(row)`: existing columns are overwritten in
place, a new column is appended on the right, as in pandas. -/
def setColWith (df : GeoDataFrame) (c : String) (f : Row → Val) : GeoDataFrame :=
  { cols := if c ∈ df.cols then df.cols else df.cols ++ [c],
    rows := df.rows.map (fun r => setCell r c (f r)) }

/-- Column selection `df[cs]` / `df.loc[:, cs]`, keeping the requested order. -/
def selectCols (df : GeoDataFrame) (cs : List String) : GeoDataFrame :=
  { cols := cs,
    rows := df.rows.map (fun r => cs.map (fun c => (c, getCell r c))) }

/-- Overlay with `how='intersection'` and `keep_geom_type=True`: every pair of
one left row and one right row with a non-empty geometric intersection yields
a fragment carrying both rows' non-geometry cells and the intersection
geometry; empty intersections produce no fragment. -/
def overlayIntersection (l r : GeoDataFrame) : GeoDataFrame :=
  { cols := (l.cols.filter (fun c => c ≠ "geometry")) ++
            (r.cols.filter (fun c => c ≠ "geometry")) ++ ["geometry"],
    rows := l.rows.flatMap (fun lr =>
      r.rows.filterMap (fun rr =>
        let g := rowGeom lr ∩ rowGeom rr
        if g = ∅ then none
        else some ((lr.filter (fun p => p.1 ≠ "geometry")) ++
                   (rr.filter (fun p => p.1 ≠ "geometry")) ++
                   [("geometry", Val.geom g)])) ) }

/-- Overlay with `how='difference'` and `keep_geom_type=True`: each left row
keeps its cells with the union of the right geometries subtracted from its
geometry; rows whose geometry becomes empty are dropped. -/
def overlayDifference (l r : GeoDataFrame) : GeoDataFrame :=
  { cols := l.cols,
    rows := l.rows.filterMap (fun lr =>
      let g := rowGeom lr \ r.rows.foldr (fun rr a => rowGeom rr ∪ a) ∅
      if g = ∅ then none
      else some (setCell lr "geometry" (Val.geom g))) }

/-- Round half to even, the rounding of numpy and hence of
`DataFrame.round(0)`. -/
def roundHalfEven (q : ℚ) : ℤ :=
  let f := q.floor
  let frac := q - (f : ℚ)
  if frac < 1 / 2 then f
  else if 1 / 2 < frac then f + 1
  else if f % 2 = 0 then f else f + 1

/-- Truncation toward zero, the conversion policy of `astype(int)` on
floating values. -/
def ratTrunc (q : ℚ) : ℤ := if 0 ≤ q then q.floor else q.ceil

/-- The chain `df.groupby(key).sum().round(0).reset_index()` of
interpolation.py lines 68 to 75: one output row per distinct key value, the
remaining columns summed numerically per group and rounded half to even,
the key returned as the first column. pandas sorts the group keys; since the
keys are distinct and the result is consumed only through an inner merge that
follows the order of its left operand, the first-occurrence order used here
yields the same final frame. -/
def groupbySumRoundReset (df : GeoDataFrame) (key : String) : GeoDataFrame :=
  let dataCols := df.cols.filter (fun c => c ≠ key)
  let keys := (df.rows.map (fun r => getCell r key)).dedup
  { cols := key :: dataCols,
    rows := keys.map (fun k =>
      (key, k) :: dataCols.map (fun c =>
        (c, Val.rat ((roundHalfEven
          (((df.rows.filter (fun r => getCell r key = k)).map
            (fun r => (getCell r c).toRat)).sum) : ℤ) : ℚ)))) }

/-- The cast `df[c] = df[c].astype(int)` of interpolation.py line 77. -/
def astypeIntCol (df : GeoDataFrame) (c : String) : GeoDataFrame :=
  { cols := df.cols,
    rows := df.rows.map (fun r => r.map (fun p =>
      if p.1 = c then (p.1, Val.int (ratTrunc p.2.toRat)) else p)) }

/-- Inner merge `l.merge(r, how='inner', on=key)`: for each left row, in
order, one output row per right row with an equal key value, carrying the
left cells followed by the right non-key cells. -/
def mergeInner (l r : GeoDataFrame) (key : String) : GeoDataFrame :=
  { cols := l.cols ++ (r.cols.filter (fun c => c ≠ key)),
    rows := l.rows.flatMap (fun lr =>
      (r.rows.filter (fun rr => getCell rr key = getCell lr key)).map
        (fun rr => lr ++ rr.filter (fun p => p.1 ≠ key))) }

/-- Python falsiness of an optional string argument (`if not s:`): true for
None and for the empty string. -/
def pyFalsyStr : Option String → Bool
  | none => true
  | some s => s = ""

/-- The resolved output-column name of interpolation.py lines 63 to 64:
`original_var_name` when `final_var_name` is absent or empty. -/
def resolveVarName (original_var_name : String) (fv : Option String) : String :=
  if pyFalsyStr fv then original_var_name else fv.getD original_var_name

/-- Shallow embedding of `areal_weighted_interpolation` of
src/core/geo/interpolation.py. The initial `left.copy()` / `right.copy()`
of lines 49 and 50 sever all aliasing with the caller, so the embedding is a
pure function of the two input frames. -/
def areal_weighted_interpolation (left right : GeoDataFrame)
    (right_id_col original_var_name : String)
    (final_var_name : Option String) : GeoDataFrame :=
  let leftA := setColWith left "total_area" rowAreaVal
  let inter := overlayIntersection leftA right
  let inter1 := setColWith inter "intersection_area" rowAreaVal
  let inter2 := setColWith inter1 "inter_prop" (fun r =>
    .rat ((getCell r "intersection_area").toRat / (getCell r "total_area").toRat))
  let fvn := resolveVarName original_var_name final_var_name
  let inter3 := setColWith inter2 fvn (fun r =>
    .rat ((getCell r original_var_name).toRat * (getCell r "inter_prop").toRat))
  let sel := selectCols inter3 [right_id_col, fvn]
  let right_interpolated := astypeIntCol (groupbySumRoundReset sel right_id_col) fvn
  mergeInner right right_interpolated right_id_col

/-- Python truthiness of an optional DataFrame argument (`if df:`): an absent
(None) argument is falsy; pandas raises ValueError for any present DataFrame,
empty or not, because NDFrame defines no boolean value. -/
def pyTruthyGdf : Option GeoDataFrame → Except String Bool
  | none => .ok false
  | some _ => .error "ValueError: The truth value of a DataFrame is ambiguous."

/-- The dissolve of urban_parks_area.py line 37,
`dissolve(by=key, aggfunc='first').reset_index()`: one row per distinct key
value, geometry the union over the group, other cells from the first row of
the group, the key returned as the first column. Unreachable in the source
(the street-block branch raises before it), embedded for completeness. -/
def dissolveFirst (df : GeoDataFrame) (key : String) : GeoDataFrame :=
  let dataCols := df.cols.filter (fun c => c ≠ key)
  let keys := (df.rows.map (fun r => getCell r key)).dedup
  { cols := key :: dataCols,
    rows := keys.map (fun k =>
      let grp := df.rows.filter (fun r => getCell r key = k)
      (key, k) :: dataCols.map (fun c =>
        if c = "geometry" then
          (c, Val.geom (grp.foldr (fun r a => rowGeom r ∪ a) ∅))
        else
          (c, getCell (grp.headD []) c))) }

/-- Shallow embedding of `prepare_tracts` of
src/core/urbanismo/urban_parks_area.py. The first component is the call
outcome; the second is the state of the caller object `df_tracts` after the
call. No defensive copy is taken: when neither optional layer triggers an
overlay, `ol2` is the caller frame itself, and line 43
(`ol2['adjusted_tract_area'] = ol2.area`) mutates it in place, so in that
case the post-call state is the returned frame. -/
def prepare_tracts (df_tracts : GeoDataFrame)
    (df_vegetation df_street_blocks : Option GeoDataFrame)
    (tracts_id_col : Option String) :
    (Except String GeoDataFrame) × GeoDataFrame :=
  match pyTruthyGdf df_vegetation with
  | .error e => (.error e, df_tracts)
  | .ok b1 =>
    let ol1 := if b1 then
        overlayDifference df_tracts (df_vegetation.getD ⟨[], []⟩)
      else df_tracts
    match pyTruthyGdf df_street_blocks with
    | .error e => (.error e, df_tracts)
    | .ok b2 =>
      let ol2 := if b2 then
          let tid := if pyFalsyStr tracts_id_col then
              (df_tracts.cols.headD "")
            else tracts_id_col.getD ""
          dissolveFirst
            (overlayIntersection ol1
              (selectCols (df_street_blocks.getD ⟨[], []⟩) ["geometry"]))
            tid
        else ol1
      let res := setColWith ol2 "adjusted_tract_area" rowAreaVal
      (.ok res, if b1 || b2 then df_tracts else res)

/-- Python str.lower, on the character list of the string. -/
def strLower (s : String) : String := ⟨s.data.map Char.toLower⟩

/-- Python str.startswith, on the character lists of the strings. -/
def strStartsWith (s pre : String) : Bool := pre.data.isPrefixOf s.data

/-- Substring containment `pat in s` of Python (character-based, as in
Python), used by the column lookup of urban_parks_area.py line 86. -/
def strContains (s pat : String) : Bool :=
  (List.range (s.data.length + 1)).any
    (fun i => pat.data.isPrefixOf (s.data.drop i))

/-- The columns of a frame whose name contains the grade prefix, in order;
line 86 takes the head of this list. -/
def riskGradeCols (df : GeoDataFrame) (pfx : String) : List String :=
  df.cols.filter (fun c => strContains c pfx)

/-- One mask entry of the filter of urban_parks_area.py line 87
(`.str.lower().str.startswith(active_risk_prefix.lower())`): defined on
string cells; a non-string cell yields NaN in the mask and the subsequent
boolean indexing raises. The prefix is passed already lowercased. -/
def gradeStarts (v : Val) (loweredPfx : String) : Except String Bool :=
  match v with
  | .str s => .ok (strStartsWith (strLower s) loweredPfx)
  | _ => .error "ValueError: Cannot mask with non-boolean array containing NA / NaN values"

/-- Lines 86 and 87 of urban_parks_area.py: select the first column whose
name contains the grade prefix (IndexError when none matches) and keep the
rows whose grade value, lowercased, starts with the lowercased active
prefix. -/
def riskFilter (df : GeoDataFrame) (pfx active : String) :
    Except String GeoDataFrame := do
  match riskGradeCols df pfx with
  | [] => throw "IndexError: list index out of range"
  | col_grau :: _ =>
    let mask ← df.rows.mapM (fun r => gradeStarts (getCell r col_grau) (strLower active))
    pure { cols := df.cols,
           rows := (df.rows.zip mask).filterMap
             (fun p => if p.2 then some p.1 else none) }

/-- Shallow embedding of `prepare_risk_area` of
src/core/urbanismo/urban_parks_area.py. The first component is the call
outcome; the second is the state of the caller list
`subprefeitura_additional_cols` after the call: lines 92 to 96 rebind a
falsy (absent or empty) list to a fresh one, so only a non-empty caller list
is mutated by the in-place `append` of the geometry column name (the
geometry column of the model is named "geometry"). -/
def prepare_risk_area (risk_area_gdf : GeoDataFrame)
    (risk_area_id_col : String)
    ( risk_grade_col_prefix active_risk_prefix : String)
    (subprefeitura_gdf : GeoDataFrame)
    (subprefeitura_id_col : Option String)
    (subprefeitura_additional_cols : Option (List String)) :
    (Except String GeoDataFrame) × Option (List String) :=
  match riskFilter risk_area_gdf risk_grade_col_prefix active_risk_prefix with
  | .error e => (.error e, subprefeitura_additional_cols)
  | .ok fgdf =>
    let sidE : Except String String :=
      if pyFalsyStr subprefeitura_id_col then
        match subprefeitura_gdf.cols with
        | [] => .error "IndexError: index 0 is out of bounds"
        | c :: _ => .ok c
      else .ok (subprefeitura_id_col.getD "")
    match sidE with
    | .error e => (.error e, subprefeitura_additional_cols)
    | .ok sid =>
      let addCols0 := match subprefeitura_additional_cols with
        | some l => if l = [] then [] else l
        | none => []
      let addCols := if "geometry" ∈ addCols0 then addCols0
        else addCols0 ++ ["geometry"]
      let listAfter : Option (List String) :=
        match subprefeitura_additional_cols with
        | some (x :: l) => some (if "geometry" ∈ x :: l then x :: l
            else (x :: l) ++ ["geometry"])
        | some [] => some []
        | none => none
      let ol := overlayIntersection fgdf
        (selectCols subprefeitura_gdf ([sid] ++ addCols))
      let ridE : Except String String :=
        if risk_area_id_col = "" then
          match risk_area_gdf.cols with
          | [] => .error "IndexError: index 0 is out of bounds"
          | c :: _ => .ok c
        else .ok risk_area_id_col
      match ridE with
      | .error e => (.error e, listAfter)
      | .ok rid =>
        let ol2 := setColWith ol "id_area_subprefeitura" (fun r =>
          .str ((getCell r rid).pyStr ++ ".subpref." ++ (getCell r sid).pyStr))
        let cols2 := "id_area_subprefeitura" ::
          (ol2.cols.filter (fun c => c ≠ "id_area_subprefeitura"))
        (.ok (selectCols ol2 cols2), listAfter)

/-- A one-polygon source layer: unit square, variable "pop" = 7. -/
def sourceLayerEx : GeoDataFrame :=
  ⟨["geometry", "pop"], [[("geometry", .geom {(0, 0)}), ("pop", .int 7)]]⟩

/-- A one-polygon target layer containing the source polygon of
`sourceLayerEx`, identifier column "rid". -/
def targetLayerEx : GeoDataFrame :=
  ⟨["rid", "geometry"], [[("rid", .str "A"), ("geometry", .geom {(0, 0), (1, 0)})]]⟩

/-- A source layer disjoint from `targetLayerEx`. -/
def sourceLayerFarEx : GeoDataFrame :=
  ⟨["geometry", "pop"], [[("geometry", .geom {(5, 5)}), ("pop", .int 7)]]⟩

/-- A one-row base tract layer. -/
def tractsEx : GeoDataFrame :=
  ⟨["tid", "geometry"], [[("tid", .int 1), ("geometry", .geom {(0, 0), (0, 1)})]]⟩

/-- The frame `prepare_tracts` produces from `tractsEx` with no optional
layers: the same rows with the adjusted area column appended. -/
def tractsResEx : GeoDataFrame :=
  ⟨["tid", "geometry", "adjusted_tract_area"],
   [[("tid", .int 1), ("geometry", .geom {(0, 0), (0, 1)}),
     ("adjusted_tract_area", .rat 2)]]⟩

/-- A present-but-empty polygon layer. -/
def emptyLayerEx : GeoDataFrame := ⟨["geometry"], []⟩

/-- A non-empty street-block layer. -/
def blocksEx : GeoDataFrame := ⟨["geometry"], [[("geometry", .geom {(0, 0)})]]⟩

/-- A two-row risk-area layer, one active (grade starting with R3) and one
not. -/
def riskAreaEx : GeoDataFrame :=
  ⟨["aid", "grau_de_risco", "geometry"],
   [[("aid", .int 10), ("grau_de_risco", .str "R3 Alto"),
     ("geometry", .geom {(0, 0)})],
    [("aid", .int 11), ("grau_de_risco", .str "Baixo"),
     ("geometry", .geom {(0, 1)})]]⟩

/-- A one-row subprefecture layer covering `riskAreaEx`. -/
def subprefEx : GeoDataFrame :=
  ⟨["sid", "geometry"],
   [[("sid", .str "SE"), ("geometry", .geom {(0, 0), (0, 1)})]]⟩

/-- Boolean form of the grade filter predicate of urban_parks_area.py
line 87, for rows whose grade cell is a string. -/
def gradeStartsB (v : Val) (loweredPfx : String) : Bool :=
  match v with
  | .str s => strStartsWith (strLower s) loweredPfx
  | _ => false

/-- The frame kept by the grade filter on `riskAreaEx` with prefix "grau"
and active prefix "r3": only the first row survives. -/
def riskFilteredEx : GeoDataFrame :=
  ⟨["aid", "grau_de_risco", "geometry"],
   [[("aid", .int 10), ("grau_de_risco", .str "R3 Alto"),
     ("geometry", .geom {(0, 0)})]]⟩

/-- The frame `prepare_risk_area` produces from `riskAreaEx` and `subprefEx`
with identifier columns "aid" and "sid". -/
def riskResEx : GeoDataFrame :=
  ⟨["id_area_subprefeitura", "aid", "grau_de_risco", "sid", "geometry"],
   [[("id_area_subprefeitura", .str "10.subpref.SE"), ("aid", .int 10),
     ("grau_de_risco", .str "R3 Alto"), ("sid", .str "SE"),
     ("geometry", .geom {(0, 0)})]]⟩

theorem rowFind_nil (c : String) : rowFind [] c = none := rfl

theorem rowFind_cons (p : String × Val) (r : Row) (c : String) :
    rowFind (p :: r) c = if p.1 = c then some p.2 else rowFind r c := by
  simp only [rowFind, List.find?_cons]
  by_cases h : p.1 = c <;> simp [h]

theorem rowFind_append (a b : Row) (c : String) :
    rowFind (a ++ b) c = (rowFind a c).or (rowFind b c) := by
  induction a with
  | nil => simp [rowFind_nil]
  | cons p a ih =>
    by_cases h : p.1 = c <;> simp [rowFind_cons, h, ih]

theorem rowFind_setCell_same (r : Row) (c : String) (v : Val) :
    rowFind (setCell r c v) c = some v := by
  induction r with
  | nil => simp [setCell, rowFind_cons]
  | cons p r ih =>
    by_cases h : p.1 = c <;> simp [setCell, h, rowFind_cons, ih]

theorem rowFind_setCell_ne (r : Row) (c c' : String) (v : Val) (h : c' ≠ c) :
    rowFind (setCell r c v) c' = rowFind r c' := by
  have hcc : ¬ (c = c') := Ne.symm h
  induction r with
  | nil => simp [setCell, rowFind_cons, rowFind_nil, hcc]
  | cons p r ih =>
    by_cases hp : p.1 = c
    · rw [show setCell (p :: r) c v = (c, v) :: r by simp [setCell, hp]]
      rw [rowFind_cons, rowFind_cons, hp]
      simp [hcc]
    · rw [show setCell (p :: r) c v = p :: setCell r c v by simp [setCell, hp]]
      rw [rowFind_cons, rowFind_cons, ih]

theorem setCell_of_rowFind_none (r : Row) (c : String) (v : Val)
    (h : rowFind r c = none) : setCell r c v = r ++ [(c, v)] := by
  induction r with
  | nil => simp [setCell]
  | cons p r ih =>
    rw [rowFind_cons] at h
    by_cases hp : p.1 = c
    · simp [hp] at h
    · simp [hp] at h
      simp [setCell, hp, ih h]

theorem rowFind_filter_ne (r : Row) (c x : String) (h : c ≠ x) :
    rowFind (r.filter (fun p => p.1 ≠ x)) c = rowFind r c := by
  induction r with
  | nil => simp
  | cons p r ih =>
    by_cases hp : p.1 = x
    · have hc : ¬ (p.1 = c) := by rw [hp]; exact Ne.symm h
      rw [show (p :: r).filter (fun p => p.1 ≠ x) = r.filter (fun p => p.1 ≠ x)
            by simp [List.filter_cons, hp]]
      rw [ih, rowFind_cons]
      simp [hc]
    · rw [show (p :: r).filter (fun p => p.1 ≠ x) =
              p :: r.filter (fun p => p.1 ≠ x)
            by simp [List.filter_cons, hp]]
      rw [rowFind_cons, rowFind_cons, ih]

theorem getCell_cons (p : String × Val) (r : Row) (c : String) :
    getCell (p :: r) c = if p.1 = c then p.2 else getCell r c := by
  simp only [getCell, rowFind_cons]
  by_cases h : p.1 = c <;> simp [h]

theorem getCell_setCell_same (r : Row) (c : String) (v : Val) :
    getCell (setCell r c v) c = v := by
  simp [getCell, rowFind_setCell_same]

theorem getCell_setCell_ne (r : Row) (c c' : String) (v : Val) (h : c' ≠ c) :
    getCell (setCell r c v) c' = getCell r c' := by
  simp [getCell, rowFind_setCell_ne r c c' v h]

theorem rowGeom_setCell_ne (r : Row) (c : String) (v : Val) (h : c ≠ "geometry") :
    rowGeom (setCell r c v) = rowGeom r := by
  simp [rowGeom, getCell_setCell_ne r c "geometry" v (fun e => h e.symm)]

theorem getCell_selectRow (cs : List String) (r : Row) (c : String) :
    getCell (cs.map (fun c0 => (c0, getCell r c0))) c =
      if c ∈ cs then getCell r c else Val.na := by
  induction cs with
  | nil => simp [getCell, rowFind_nil]
  | cons c0 cs ih =>
    by_cases h : c0 = c
    · simp [getCell_cons, h]
    · have hs : ¬ (c = c0) := fun e => h (Eq.symm e)
      simp [getCell_cons, h, ih, hs]

theorem length_flatMap_le {α β : Type} (l : List α) (f : α → List β)
    (h : ∀ a ∈ l, (f a).length ≤ 1) :
    (l.flatMap f).length ≤ l.length := by
  induction l with
  | nil => simp
  | cons a l ih =>
    rw [List.flatMap_cons, List.length_append, List.length_cons]
    have h1 := h a (by simp)
    have h2 := ih (fun a ha => h a (by simp [ha]))
    omega

theorem nodup_filter_eq_length_le_one {α : Type} [DecidableEq α] (l : List α)
    (h : l.Nodup) (a : α) : (l.filter (fun x => x = a)).length ≤ 1 := by
  induction l with
  | nil => simp
  | cons b l ih =>
    rw [List.nodup_cons] at h
    by_cases hb : b = a
    · subst hb
      have hnil : l.filter (fun x => x = b) = [] := by
        rw [List.filter_eq_nil_iff]
        intro x hx
        simp only [decide_eq_true_eq]
        exact fun e => h.1 (e ▸ hx)
      simp [List.filter_cons, hnil]
    · simp only [List.filter_cons, decide_eq_true_eq, hb, if_false]
      exact ih h.2

theorem rowFind_filter_self (r : Row) (x : String) :
    rowFind (r.filter (fun p => p.1 ≠ x)) x = none := by
  induction r with
  | nil => rfl
  | cons p r ih =>
    by_cases hp : p.1 = x
    · rw [show (p :: r).filter (fun p => p.1 ≠ x) = r.filter (fun p => p.1 ≠ x)
            from by simp [List.filter_cons, hp]]
      exact ih
    · rw [show (p :: r).filter (fun p => p.1 ≠ x) =
              p :: r.filter (fun p => p.1 ≠ x)
            from by simp [List.filter_cons, hp]]
      rw [rowFind_cons]
      rw [if_neg hp]
      exact ih

theorem ratTrunc_intCast (z : ℤ) : ratTrunc ((z : ℤ) : ℚ) = z := by
  have hf : ((z : ℚ)).floor = z := rfl
  have hc : ((z : ℚ)).ceil = z := by
    simp [Rat.ceil, Rat.intCast_den, Rat.intCast_num]
  unfold ratTrunc
  split <;> simp [hf, hc]

theorem mapM_gradeStarts (rows : List Row) (c0 lp : String)
    (h : ∀ r ∈ rows, (getCell r c0).isStr = true) :
    rows.mapM (fun r => gradeStarts (getCell r c0) lp) =
      Except.ok (rows.map (fun r => gradeStartsB (getCell r c0) lp)) := by
  induction rows with
  | nil => rfl
  | cons r rows ih =>
    have h0 := h r (by simp)
    have ih2 := ih (fun a ha => h a (by simp [ha]))
    cases hv : getCell r c0
    case str s =>
      rw [List.mapM_cons, ih2]
      simp [hv, gradeStarts, gradeStartsB]
      rfl
    all_goals (rw [hv] at h0; simp [Val.isStr] at h0)

theorem zip_map_filterMap_filter {α : Type} (l : List α) (p : α → Bool) :
    ((l.zip (l.map p)).filterMap (fun q => if q.2 then some q.1 else none)) =
      l.filter p := by
  induction l with
  | nil => rfl
  | cons a l ih =>
    by_cases h : p a <;>
      simp [List.zip_cons_cons, List.filterMap_cons, List.filter_cons, h, ih]

/-- C4: the claim says no pipeline function mutates a caller-supplied layer,
in particular prepare_tracts with both optional layers absent. The code
violates it: with no vegetation and no street blocks, prepare_tracts takes
no copy, so line 43 adds the column adjusted_tract_area to the caller frame
itself; the post-call state of the argument is the returned frame, which
differs from the original. -/
theorem prepare_tracts_mutates_caller :
    prepare_tracts tractsEx none none none = (.ok tractsResEx, tractsResEx) ∧
      tractsResEx ≠ tractsEx := by
  constructor
  · decide
  · decide

/-- C6 counterexample: the claim says that a provided-but-empty optional
layer makes the truthiness check evaluate as false, so the call behaves as
if the layer were absent and returns normally. On the code, passing an
empty vegetation layer raises a ValueError (pandas DataFrame truthiness),
so the call neither returns normally nor matches the no-layer call. -/
theorem prepare_tracts_empty_layer_raises :
    (prepare_tracts tractsEx (some emptyLayerEx) none none).1 =
        .error "ValueError: The truth value of a DataFrame is ambiguous." ∧
      prepare_tracts tractsEx (some emptyLayerEx) none none ≠
        prepare_tracts tractsEx none none none := by
  constructor
  · decide
  · decide

/-- C6 amended: providing an optional layer to prepare_tracts, whether
empty or not, makes the call raise the pandas DataFrame-truthiness
ValueError; only an absent (None) layer skips the corresponding stage. -/
theorem prepare_tracts_present_layer_raises (df : GeoDataFrame)
    (veg blocks : Option GeoDataFrame) (tid : Option String)
    (h : veg.isSome ∨ blocks.isSome) :
    ∃ e, (prepare_tracts df veg blocks tid).1 = .error e := by
  cases veg with
  | some v => exact ⟨_, rfl⟩
  | none =>
    cases blocks with
    | some b => exact ⟨_, rfl⟩
    | none => simp at h

/-- C6 amended, witness: a present-but-empty street-block layer makes the
call raise. -/
theorem prepare_tracts_present_layer_raises_witness :
    ((none : Option GeoDataFrame).isSome ∨
        (some emptyLayerEx : Option GeoDataFrame).isSome) ∧
      ∃ e, (prepare_tracts tractsEx none (some emptyLayerEx) none).1 = .error e :=
  ⟨by decide,
   prepare_tracts_present_layer_raises tractsEx none (some emptyLayerEx) none
     (by decide)⟩

/-- C7: the claim says that supplying a street-block layer makes
prepare_tracts dissolve to one row per distinct tract identifier, as the
function docstring also states. The code contradicts this: `if
df_street_blocks:` raises the pandas DataFrame-truthiness ValueError for
every supplied street-block layer, so the intersect-and-dissolve branch is
unreachable. -/
theorem prepare_tracts_street_blocks_raises :
    (prepare_tracts tractsEx none (some blocksEx) none).1 =
      .error "ValueError: The truth value of a DataFrame is ambiguous." := by
  decide

/-- C5: prepare_tracts with no vegetation layer and no street-block layer
returns the base layer unchanged except for one appended column
adjusted_tract_area whose value for each row is the planar area of that
row's geometry. -/
theorem prepare_tracts_no_optional_layers (df : GeoDataFrame) (tid : Option String)
    (hcols : "adjusted_tract_area" ∉ df.cols)
    (hrows : ∀ r ∈ df.rows, rowFind r "adjusted_tract_area" = none) :
    (prepare_tracts df none none tid).1 =
      .ok ⟨df.cols ++ ["adjusted_tract_area"],
           df.rows.map (fun r =>
             r ++ [("adjusted_tract_area", Val.rat (rowGeom r).card)])⟩ := by
  have hred : (prepare_tracts df none none tid).1 =
      .ok (setColWith df "adjusted_tract_area" rowAreaVal) := rfl
  rw [hred]
  congr 1
  unfold setColWith
  congr 1
  · simp [hcols]
  · refine List.map_congr_left (fun r hr => ?_)
    rw [setCell_of_rowFind_none r _ _ (hrows r hr)]
    rfl

/-- C5 witness: the single-row tract layer. -/
theorem prepare_tracts_no_optional_layers_witness :
    ("adjusted_tract_area" ∉ tractsEx.cols) ∧
      (∀ r ∈ tractsEx.rows, rowFind r "adjusted_tract_area" = none) ∧
      (prepare_tracts tractsEx none none none).1 =
        .ok ⟨tractsEx.cols ++ ["adjusted_tract_area"],
             tractsEx.rows.map (fun r =>
               r ++ [("adjusted_tract_area", Val.rat (rowGeom r).card)])⟩ :=
  ⟨by decide, by decide,
   prepare_tracts_no_optional_layers tractsEx none (by decide) (by decide)⟩

/-- C10: when prepare_risk_area is called with a non-empty
subprefeitura_additional_cols list, the in-place append of lines 95 to 96
mutates the caller list: after the call it has gained the geometry column
name, unless that name was already present, in which case it is unchanged.
The filter and identifier-default stages are assumed to succeed, since they
run before the mutation point. -/
theorem prepare_risk_area_list_effect (A : GeoDataFrame) (rid pfx act : String)
    (S : GeoDataFrame) (sname : String) (l : List String) (F : GeoDataFrame)
    (hl : l ≠ [])
    (hflt : riskFilter A pfx act = .ok F)
    (hs : sname ≠ "") :
    (prepare_risk_area A rid pfx act S (some sname) (some l)).2 =
      some (if "geometry" ∈ l then l else l ++ ["geometry"]) := by
  unfold prepare_risk_area
  rw [hflt]
  have hfal : pyFalsyStr (some sname) = false := by
    simp [pyFalsyStr, hs]
  cases l with
  | nil => exact absurd rfl hl
  | cons x l' =>
    simp only [hfal, Bool.false_eq_true, if_false, Option.getD_some]
    generalize (if rid = "" then
        (match A.cols with
         | [] => Except.error "IndexError: index 0 is out of bounds"
         | c :: _ => Except.ok c)
      else Except.ok rid : Except String String) = ridE
    cases ridE <;> rfl

/-- C10 witness: a caller list not containing the geometry column name
gains it; the hypotheses hold for the concrete risk-area example. -/
theorem prepare_risk_area_list_effect_witness :
    (["nome"] ≠ ([] : List String)) ∧
      (riskFilter riskAreaEx "grau" "r3" = .ok riskFilteredEx) ∧
      ("sid" ≠ "") ∧
      (prepare_risk_area riskAreaEx "aid" "grau" "r3" subprefEx (some "sid")
          (some ["nome"])).2 =
        some (if "geometry" ∈ ["nome"] then ["nome"]
              else ["nome"] ++ ["geometry"]) :=
  ⟨by decide, by decide, by decide,
   prepare_risk_area_list_effect riskAreaEx "aid" "grau" "r3" subprefEx "sid"
     ["nome"] riskFilteredEx (by decide) (by decide) (by decide)⟩

/-- C8: prepare_risk_area locates the risk-grade column as the first column
whose name contains risk_grade_col_prefix (case-sensitive containment), and
the rows surviving its filter stage (riskFilter, lines 86 and 87 of
urban_parks_area.py) are exactly those whose grade value, lowercased, starts
with the lowercased active_risk_prefix. -/
theorem riskFilter_first_match_filters (df : GeoDataFrame) (pfx act : String)
    (c0 : String) (cs : List String)
    (hcol : riskGradeCols df pfx = c0 :: cs)
    (hstr : ∀ r ∈ df.rows, (getCell r c0).isStr = true) :
    riskFilter df pfx act =
      .ok ⟨df.cols,
           df.rows.filter (fun r => gradeStartsB (getCell r c0) (strLower act))⟩ := by
  unfold riskFilter
  rw [hcol]
  dsimp only
  rw [mapM_gradeStarts df.rows c0 (strLower act) hstr]
  show Except.ok _ = _
  rw [zip_map_filterMap_filter]

/-- C8 witness: on the concrete risk-area layer, the first matching column
is grau_de_risco and exactly the active row survives. -/
theorem riskFilter_first_match_filters_witness :
    (riskGradeCols riskAreaEx "grau" = ["grau_de_risco"]) ∧
      (∀ r ∈ riskAreaEx.rows, (getCell r "grau_de_risco").isStr = true) ∧
      riskFilter riskAreaEx "grau" "r3" =
        .ok ⟨riskAreaEx.cols,
             riskAreaEx.rows.filter (fun r =>
               gradeStartsB (getCell r "grau_de_risco") (strLower "r3"))⟩ :=
  ⟨by decide, by decide ,
   riskFilter_first_match_filters riskAreaEx "grau" "r3" "grau_de_risco" []
     (by decide) (by decide )⟩

/-- C9: in the frame returned by prepare_risk_area, the column
id_area_subprefeitura holds, for every row, the string form of that row's
risk-area identifier, then the literal separator .subpref., then the string
form of that row's subprefecture identifier; and this composite column is
the first column, with all other columns following it. -/
theorem prepare_risk_area_composite_first (A S : GeoDataFrame)
    (rid pfx act sname : String) (addc : Option (List String))
    (res : GeoDataFrame)
    (hrid : rid ≠ "") (hsn : sname ≠ "")
    (hr1 : rid ≠ "id_area_subprefeitura") (hs1 : sname ≠ "id_area_subprefeitura")
    (h : (prepare_risk_area A rid pfx act S (some sname) addc).1 = .ok res)
    (hmr : rid ∈ res.cols) (hms : sname ∈ res.cols) :
    res.cols.head? = some "id_area_subprefeitura" ∧
      "id_area_subprefeitura" ∉ res.cols.tail ∧
      ∀ row ∈ res.rows, getCell row "id_area_subprefeitura" =
        .str ((getCell row rid).pyStr ++ ".subpref." ++
              (getCell row sname).pyStr) := by
  unfold prepare_risk_area at h
  cases hflt : riskFilter A pfx act with
  | error e =>
    rw [hflt] at h
    simp at h
  | ok F =>
    rw [hflt] at h
    have hfal : pyFalsyStr (some sname) = false := by
      simp [pyFalsyStr, hsn]
    simp only [hfal, Bool.false_eq_true, if_false, Option.getD_some,
      if_neg hrid] at h
    rw [Except.ok.injEq] at h
    subst h
    simp only [selectCols, setColWith] at hmr hms ⊢
    refine ⟨rfl, by simp, ?_⟩
    intro row hrow
    rw [List.mem_map] at hrow
    obtain ⟨r2, hr2, rfl⟩ := hrow
    rw [List.mem_map] at hr2
    obtain ⟨r, hr, rfl⟩ := hr2
    rw [getCell_selectRow, getCell_selectRow, getCell_selectRow]
    rw [if_pos hmr, if_pos hms, if_pos (by simp)]
    rw [getCell_setCell_same]
    rw [getCell_setCell_ne _ _ _ _ hr1, getCell_setCell_ne _ _ _ _ hs1]

/-- C9 witness: the concrete risk-area and subprefecture layers produce the
composite identifier 10.subpref.SE as the first column. -/
theorem prepare_risk_area_composite_first_witness :
    ("aid" ≠ "") ∧ ("sid" ≠ "") ∧ ("aid" ≠ "id_area_subprefeitura") ∧
      ("sid" ≠ "id_area_subprefeitura") ∧
      ((prepare_risk_area riskAreaEx "aid" "grau" "r3" subprefEx (some "sid")
          none).1 = .ok riskResEx) ∧
      ("aid" ∈ riskResEx.cols) ∧ ("sid" ∈ riskResEx.cols) ∧
      (riskResEx.cols.head? = some "id_area_subprefeitura" ∧
        "id_area_subprefeitura" ∉ riskResEx.cols.tail ∧
        ∀ row ∈ riskResEx.rows, getCell row "id_area_subprefeitura" =
          .str ((getCell row "aid").pyStr ++ ".subpref." ++
                (getCell row "sid").pyStr)) :=
  ⟨by decide, by decide, by decide, by decide, by decide, by decide, by decide,
   prepare_risk_area_composite_first riskAreaEx subprefEx "aid" "grau" "r3"
     "sid" none riskResEx (by decide) (by decide) (by decide) (by decide)
     (by decide) (by decide) (by decide)⟩

/-- C1: when every source geometry is disjoint from every target geometry,
no intersection fragment exists, the aggregation after the intersection is
empty, and the inner join on the identifier column drops every target
record: areal_weighted_interpolation returns a frame with no rows. -/
theorem areal_weighted_interpolation_disjoint_empty
    (left right : GeoDataFrame) (idc ovn : String) (fv : Option String)
    (h : ∀ lr ∈ left.rows, ∀ rr ∈ right.rows, rowGeom lr ∩ rowGeom rr = ∅) :
    (areal_weighted_interpolation left right idc ovn fv).rows = [] := by
  have hinter :
      (overlayIntersection (setColWith left "total_area" rowAreaVal)
        right).rows = [] := by
    simp only [overlayIntersection, setColWith]
    rw [List.flatMap_eq_nil_iff]
    intro lr2 hlr2
    rw [List.mem_map] at hlr2
    obtain ⟨lr, hlr, rfl⟩ := hlr2
    rw [List.filterMap_eq_nil_iff]
    intro rr hrr
    have hg : rowGeom (setCell lr "total_area" (rowAreaVal lr)) = rowGeom lr :=
      rowGeom_setCell_ne lr _ _ (by decide)
    simp [hg, h lr hlr rr hrr]
  unfold areal_weighted_interpolation
  simp only []
  generalize hI : overlayIntersection (setColWith left "total_area" rowAreaVal)
      right = I
  rw [hI] at hinter
  obtain ⟨ic, ir⟩ := I
  simp only at hinter
  subst hinter
  simp [setColWith, selectCols, groupbySumRoundReset, astypeIntCol, mergeInner]

/-- C1 witness: a source layer far away from the target layer yields an
empty result. -/
theorem areal_weighted_interpolation_disjoint_empty_witness :
    (∀ lr ∈ sourceLayerFarEx.rows, ∀ rr ∈ targetLayerEx.rows,
        rowGeom lr ∩ rowGeom rr = ∅) ∧
      (areal_weighted_interpolation sourceLayerFarEx targetLayerEx "rid" "pop"
        none).rows = [] :=
  ⟨by decide,
   areal_weighted_interpolation_disjoint_empty sourceLayerFarEx targetLayerEx
     "rid" "pop" none (by decide)⟩

theorem filter_map_key_le_one (ks : List Val) (F : Val → Row) (c : String)
    (v : Val) (hks : ks.Nodup) (hF : ∀ k, getCell (F k) c = k) :
    ((ks.map F).filter (fun cr => getCell cr c = v)).length ≤ 1 := by
  rw [List.filter_map, List.length_map]
  rw [List.filter_congr (fun k _ => by simp [Function.comp, hF] :
    ∀ k ∈ ks, ((fun cr => decide (getCell cr c = v)) ∘ F) k = decide (k = v))]
  exact nodup_filter_eq_length_le_one _ hks _

theorem pipelineShape (right inner3 : GeoDataFrame) (idc fvn : String)
    (hne : fvn ≠ idc) :
    (mergeInner right
        (astypeIntCol (groupbySumRoundReset (selectCols inner3 [idc, fvn]) idc)
          fvn) idc).cols = right.cols ++ [fvn] ∧
      (∀ row ∈ (mergeInner right
          (astypeIntCol (groupbySumRoundReset (selectCols inner3 [idc, fvn])
            idc) fvn) idc).rows,
        ∃ rrow ∈ right.rows, ∃ z : ℤ, row = rrow ++ [(fvn, Val.int z)]) ∧
      (mergeInner right
        (astypeIntCol (groupbySumRoundReset (selectCols inner3 [idc, fvn]) idc)
          fvn) idc).rows.length ≤ right.rows.length := by
  have hdata : ([idc, fvn].filter (fun c => c ≠ idc)) = [fvn] := by
    simp [List.filter_cons, hne]
  have hidf : ¬ (idc = fvn) := fun e => hne (Eq.symm e)
  refine ⟨?_, ?_, ?_⟩
  · simp only [mergeInner, astypeIntCol, groupbySumRoundReset, selectCols]
    rw [show ((idc :: [idc, fvn].filter (fun c => c ≠ idc)).filter
          (fun c => c ≠ idc)) = [fvn]
        from by simp [List.filter_cons, hne]]
  · intro row hrow
    simp only [mergeInner, astypeIntCol, groupbySumRoundReset, selectCols]
      at hrow
    rw [List.mem_flatMap] at hrow
    obtain ⟨rr, hrr, hrow2⟩ := hrow
    rw [List.mem_map] at hrow2
    obtain ⟨cr, hcr, rfl⟩ := hrow2
    have hcr2 := List.mem_of_mem_filter hcr
    rw [List.mem_map] at hcr2
    obtain ⟨gr, hgr, rfl⟩ := hcr2
    rw [List.mem_map] at hgr
    obtain ⟨k, _, rfl⟩ := hgr
    refine ⟨rr, hrr, ?_⟩
    rw [hdata]
    simp [List.filter_cons, hne, hidf]
  · simp only [mergeInner, astypeIntCol, groupbySumRoundReset, selectCols]
    refine length_flatMap_le _ _ (fun rr hrr => ?_)
    rw [List.length_map, List.map_map]
    exact filter_map_key_le_one _ _ idc (getCell rr idc) (List.nodup_dedup _)
      (fun k => by simp [Function.comp, getCell_cons, hidf])

/-- C3: the frame returned by areal_weighted_interpolation retains the
target layer columns and, per row, the target cells, gains exactly one new
column named after the resolved variable name whose values are of integer
type, and has at most as many rows as the target layer. The hypotheses
record that the chosen output name collides neither with the identifier
column nor with an existing target column, the collision-free situation the
embedded merge assumes (pandas would otherwise suffix the colliding
names). -/
theorem areal_weighted_interpolation_shape
    (left right : GeoDataFrame) (idc ovn : String) (fv : Option String)
    (hne : resolveVarName ovn fv ≠ idc)
    (hnc : resolveVarName ovn fv ∉ right.cols) :
    (areal_weighted_interpolation left right idc ovn fv).cols =
        right.cols ++ [resolveVarName ovn fv] ∧
      (∀ row ∈ (areal_weighted_interpolation left right idc ovn fv).rows,
        ∃ rrow ∈ right.rows, ∃ z : ℤ,
          row = rrow ++ [(resolveVarName ovn fv, Val.int z)]) ∧
      (areal_weighted_interpolation left right idc ovn fv).rows.length ≤
        right.rows.length :=
  pipelineShape right _ idc (resolveVarName ovn fv) hne

/-- C3 witness: the single-polygon layers with output column pop. -/
theorem areal_weighted_interpolation_shape_witness :
    (resolveVarName "pop" none ≠ "rid") ∧
      (resolveVarName "pop" none ∉ targetLayerEx.cols) ∧
      ((areal_weighted_interpolation sourceLayerEx targetLayerEx "rid" "pop"
          none).cols = targetLayerEx.cols ++ [resolveVarName "pop" none] ∧
        (∀ row ∈ (areal_weighted_interpolation sourceLayerEx targetLayerEx
            "rid" "pop" none).rows,
          ∃ rrow ∈ targetLayerEx.rows, ∃ z : ℤ,
            row = rrow ++ [(resolveVarName "pop" none, Val.int z)]) ∧
        (areal_weighted_interpolation sourceLayerEx targetLayerEx "rid" "pop"
          none).rows.length ≤ targetLayerEx.rows.length) :=
  ⟨by decide, by decide,
   areal_weighted_interpolation_shape sourceLayerEx targetLayerEx "rid" "pop"
     none (by decide) (by decide)⟩

theorem setColWith_rows (df : GeoDataFrame) (c : String) (f : Row → Val) :
    (setColWith df c f).rows = df.rows.map (fun r => setCell r c (f r)) := rfl

/-- C2: when a single target polygon wholly contains a single source
polygon of positive area, the intersection fragment is the whole source
polygon, the area proportion is one, and the value stored for the target
row is the source value after the round-to-nearest-integer and
cast-to-integer steps. The name hypotheses keep the user columns clear of
the four internal column names and of each other, the collision-free
situation the pandas pipeline assumes. -/
theorem areal_weighted_interpolation_contained
    (lcols rcols : List String) (lrow rrow : Row)
    (idc ovn : String) (fv : Option String)
    (g h : Finset (ℤ × ℤ)) (v kv : Val)
    (hg : rowGeom lrow = g) (hh : rowGeom rrow = h)
    (hsub : g ⊆ h) (hpos : g ≠ ∅)
    (hov : rowFind lrow ovn = some v)
    (hkv : rowFind rrow idc = some kv)
    (hlidc : rowFind lrow idc = none)
    (hovG : ovn ≠ "geometry") (hovT : ovn ≠ "total_area")
    (hovI : ovn ≠ "intersection_area") (hovP : ovn ≠ "inter_prop")
    (hidG : idc ≠ "geometry") (hidT : idc ≠ "total_area")
    (hidI : idc ≠ "intersection_area") (hidP : idc ≠ "inter_prop")
    (hfvi : resolveVarName ovn fv ≠ idc) :
    (areal_weighted_interpolation ⟨lcols, [lrow]⟩ ⟨rcols, [rrow]⟩ idc ovn
        fv).rows =
      [rrow ++ [(resolveVarName ovn fv, Val.int (roundHalfEven v.toRat))]] := by
  have hGH : g ∩ h = g := Finset.inter_eq_left.mpr hsub
  have hcard : ((g.card : ℚ)) ≠ 0 := by
    rw [Nat.cast_ne_zero, Ne, Finset.card_eq_zero]
    exact hpos
  set fvn := resolveVarName ovn fv with hfvn
  have hidf : ¬ (idc = fvn) := fun e => hfvi (Eq.symm e)
  set A := setCell lrow "total_area" (Val.rat (g.card : ℚ)) with hA
  have hgA : rowGeom A = g := by
    rw [hA, rowGeom_setCell_ne _ _ _ (by decide), hg]
  set F := (A.filter (fun p => p.1 ≠ "geometry")) ++
      ((rrow.filter (fun p => p.1 ≠ "geometry")) ++
        [("geometry", Val.geom g)]) with hF
  have hover :
      (overlayIntersection (setColWith ⟨lcols, [lrow]⟩ "total_area" rowAreaVal)
        ⟨rcols, [rrow]⟩).rows = [F] := by
    simp only [overlayIntersection, setColWith, List.map_cons, List.map_nil,
      List.flatMap_cons, List.flatMap_nil, List.filterMap_cons,
      List.filterMap_nil]
    rw [show setCell lrow "total_area" (rowAreaVal lrow) = A
          from by rw [hA, rowAreaVal, hg]]
    rw [hgA, hh, hGH]
    rw [if_neg hpos]
    simp [hF]
  have hFg : rowGeom F = g := by
    rw [hF]
    unfold rowGeom getCell
    rw [rowFind_append, rowFind_append, rowFind_filter_self,
      rowFind_filter_self]
    simp [rowFind_cons]
  have hFta : getCell F "total_area" = Val.rat (g.card : ℚ) := by
    unfold getCell
    rw [hF, rowFind_append, rowFind_filter_ne _ _ _ (by decide), hA,
      rowFind_setCell_same]
    rfl
  have hFovn : getCell F ovn = v := by
    unfold getCell
    rw [hF, rowFind_append, rowFind_filter_ne _ _ _ hovG, hA,
      rowFind_setCell_ne _ _ _ _ hovT, hov]
    rfl
  have hFidc : getCell F idc = kv := by
    unfold getCell
    rw [hF, rowFind_append, rowFind_filter_ne _ _ _ hidG, hA,
      rowFind_setCell_ne _ _ _ _ hidT, hlidc, rowFind_append,
      rowFind_filter_ne _ _ _ hidG, hkv]
    rfl
  set B := setCell F "intersection_area" (Val.rat (g.card : ℚ)) with hB
  have hinter1 :
      (setColWith (overlayIntersection
          (setColWith ⟨lcols, [lrow]⟩ "total_area" rowAreaVal)
          ⟨rcols, [rrow]⟩) "intersection_area" rowAreaVal).rows = [B] := by
    rw [setColWith_rows, hover]
    simp only [List.map_cons, List.map_nil]
    rw [show rowAreaVal F = Val.rat (g.card : ℚ)
          from by rw [rowAreaVal, hFg]]
  have hBint : getCell B "intersection_area" = Val.rat (g.card : ℚ) := by
    rw [hB]
    exact getCell_setCell_same _ _ _
  have hBta : getCell B "total_area" = Val.rat (g.card : ℚ) := by
    rw [hB, getCell_setCell_ne _ _ _ _ (by decide)]
    exact hFta
  set C := setCell B "inter_prop" (Val.rat 1) with hC
  have hinter2 :
      (setColWith (setColWith (overlayIntersection
          (setColWith ⟨lcols, [lrow]⟩ "total_area" rowAreaVal)
          ⟨rcols, [rrow]⟩) "intersection_area" rowAreaVal) "inter_prop"
        (fun r => Val.rat ((getCell r "intersection_area").toRat /
          (getCell r "total_area").toRat))).rows = [C] := by
    rw [setColWith_rows, hinter1]
    simp only [List.map_cons, List.map_nil]
    rw [hBint, hBta]
    rw [show ((Val.rat (g.card : ℚ)).toRat / (Val.rat (g.card : ℚ)).toRat) =
          (1 : ℚ) from div_self hcard]
  have hCip : getCell C "inter_prop" = Val.rat 1 := by
    rw [hC]
    exact getCell_setCell_same _ _ _
  have hCovn : getCell C ovn = v := by
    rw [hC, getCell_setCell_ne _ _ _ _ hovP, hB,
      getCell_setCell_ne _ _ _ _ hovI]
    exact hFovn
  set D := setCell C fvn (Val.rat v.toRat) with hD
  have hinter3 :
      (setColWith (setColWith (setColWith (overlayIntersection
          (setColWith ⟨lcols, [lrow]⟩ "total_area" rowAreaVal)
          ⟨rcols, [rrow]⟩) "intersection_area" rowAreaVal) "inter_prop"
        (fun r => Val.rat ((getCell r "intersection_area").toRat /
          (getCell r "total_area").toRat))) fvn
        (fun r => Val.rat ((getCell r ovn).toRat *
          (getCell r "inter_prop").toRat))).rows = [D] := by
    rw [setColWith_rows, hinter2]
    simp only [List.map_cons, List.map_nil]
    rw [hCovn, hCip]
    rw [show (v.toRat * (Val.rat 1).toRat) = v.toRat from mul_one v.toRat]
  have hDidc : getCell D idc = kv := by
    rw [hD, getCell_setCell_ne _ _ _ _ hidf, hC,
      getCell_setCell_ne _ _ _ _ hidP, hB,
      getCell_setCell_ne _ _ _ _ hidI]
    exact hFidc
  have hDfvn : getCell D fvn = Val.rat v.toRat := by
    rw [hD]
    exact getCell_setCell_same _ _ _
  have hsel :
      (selectCols (setColWith (setColWith (setColWith (overlayIntersection
          (setColWith ⟨lcols, [lrow]⟩ "total_area" rowAreaVal)
          ⟨rcols, [rrow]⟩) "intersection_area" rowAreaVal) "inter_prop"
        (fun r => Val.rat ((getCell r "intersection_area").toRat /
          (getCell r "total_area").toRat))) fvn
        (fun r => Val.rat ((getCell r ovn).toRat *
          (getCell r "inter_prop").toRat))) [idc, fvn]) =
      ⟨[idc, fvn], [[(idc, kv), (fvn, Val.rat v.toRat)]]⟩ := by
    simp only [selectCols]
    rw [hinter3]
    simp only [List.map_cons, List.map_nil]
    rw [hDidc, hDfvn]
  have hsrow : getCell [(idc, kv), (fvn, Val.rat v.toRat)] idc = kv := by
    rw [getCell_cons]
    simp
  have hsfvn : getCell [(idc, kv), (fvn, Val.rat v.toRat)] fvn =
      Val.rat v.toRat := by
    rw [getCell_cons, if_neg hidf, getCell_cons]
    simp
  have hgrp :
      (groupbySumRoundReset (selectCols (setColWith (setColWith (setColWith
          (overlayIntersection (setColWith ⟨lcols, [lrow]⟩ "total_area"
            rowAreaVal) ⟨rcols, [rrow]⟩) "intersection_area" rowAreaVal)
          "inter_prop" (fun r => Val.rat
            ((getCell r "intersection_area").toRat /
              (getCell r "total_area").toRat))) fvn
          (fun r => Val.rat ((getCell r ovn).toRat *
            (getCell r "inter_prop").toRat))) [idc, fvn]) idc).rows =
      [[(idc, kv), (fvn, Val.rat ((roundHalfEven v.toRat : ℤ) : ℚ))]] := by
    rw [hsel]
    simp only [groupbySumRoundReset]
    rw [show ([idc, fvn].filter (fun c => c ≠ idc)) = [fvn]
          from by simp [List.filter_cons, hfvi]]
    simp only [List.map_cons, List.map_nil, hsrow]
    rw [List.dedup_cons_of_not_mem (by simp), List.dedup_nil]
    simp only [List.map_cons, List.map_nil]
    rw [show ([[(idc, kv), (fvn, Val.rat v.toRat)]].filter
          (fun r => getCell r idc = kv)) =
        [[(idc, kv), (fvn, Val.rat v.toRat)]]
        from by simp [List.filter_cons, hsrow]]
    simp only [List.map_cons, List.map_nil, hsfvn]
    rw [show ([(Val.rat v.toRat).toRat].sum) = v.toRat
        from by simp [Val.toRat]]
  have hcast :
      (astypeIntCol (groupbySumRoundReset (selectCols (setColWith (setColWith
          (setColWith (overlayIntersection (setColWith ⟨lcols, [lrow]⟩
            "total_area" rowAreaVal) ⟨rcols, [rrow]⟩) "intersection_area"
            rowAreaVal) "inter_prop" (fun r => Val.rat
              ((getCell r "intersection_area").toRat /
                (getCell r "total_area").toRat))) fvn
          (fun r => Val.rat ((getCell r ovn).toRat *
            (getCell r "inter_prop").toRat))) [idc, fvn]) idc) fvn).rows =
      [[(idc, kv), (fvn, Val.int (roundHalfEven v.toRat))]] := by
    simp only [astypeIntCol]
    rw [hgrp]
    simp [hidf, Val.toRat, ratTrunc_intCast]
  have hridc : getCell rrow idc = kv := by
    unfold getCell
    rw [hkv]
    rfl
  show (mergeInner ⟨rcols, [rrow]⟩ (astypeIntCol (groupbySumRoundReset
      (selectCols (setColWith (setColWith (setColWith (overlayIntersection
        (setColWith ⟨lcols, [lrow]⟩ "total_area" rowAreaVal)
        ⟨rcols, [rrow]⟩) "intersection_area" rowAreaVal) "inter_prop"
        (fun r => Val.rat ((getCell r "intersection_area").toRat /
          (getCell r "total_area").toRat))) fvn
        (fun r => Val.rat ((getCell r ovn).toRat *
          (getCell r "inter_prop").toRat))) [idc, fvn]) idc) fvn) idc).rows =
    [rrow ++ [(fvn, Val.int (roundHalfEven v.toRat))]]
  simp only [mergeInner]
  rw [hcast]
  simp only [List.flatMap_cons, List.flatMap_nil, List.append_nil, hridc]
  rw [show ([[(idc, kv), (fvn, Val.int (roundHalfEven v.toRat))]].filter
        (fun cr => getCell cr idc = kv)) =
      [[(idc, kv), (fvn, Val.int (roundHalfEven v.toRat))]]
      from by simp [List.filter_cons, getCell_cons]]
  simp only [List.map_cons, List.map_nil]
  rw [show ([(idc, kv), (fvn, Val.int (roundHalfEven v.toRat))].filter
        (fun p => p.1 ≠ idc)) = [(fvn, Val.int (roundHalfEven v.toRat))]
      from by simp [List.filter_cons, hfvi, hidf]]

/-- C2 witness: a unit-square source with value 7 wholly inside a two-cell
target receives exactly 7 on the single target row. -/
theorem areal_weighted_interpolation_contained_witness :
    (rowGeom [("geometry", Val.geom {(0, 0)}), ("pop", Val.int 7)] =
        ({(0, 0)} : Finset (ℤ × ℤ))) ∧
      (rowGeom [("rid", Val.str "A"), ("geometry", Val.geom {(0, 0), (1, 0)})] =
        ({(0, 0), (1, 0)} : Finset (ℤ × ℤ))) ∧
      (({(0, 0)} : Finset (ℤ × ℤ)) ⊆ {(0, 0), (1, 0)}) ∧
      (({(0, 0)} : Finset (ℤ × ℤ)) ≠ ∅) ∧
      (rowFind [("geometry", Val.geom {(0, 0)}), ("pop", Val.int 7)] "pop" =
        some (Val.int 7)) ∧
      (rowFind [("rid", Val.str "A"),
          ("geometry", Val.geom {(0, 0), (1, 0)})] "rid" =
        some (Val.str "A")) ∧
      (rowFind [("geometry", Val.geom {(0, 0)}), ("pop", Val.int 7)] "rid" =
        none) ∧
      (areal_weighted_interpolation
          ⟨["geometry", "pop"],
            [[("geometry", Val.geom {(0, 0)}), ("pop", Val.int 7)]]⟩
          ⟨["rid", "geometry"],
            [[("rid", Val.str "A"), ("geometry", Val.geom {(0, 0), (1, 0)})]]⟩
          "rid" "pop" none).rows =
        [[("rid", Val.str "A"), ("geometry", Val.geom {(0, 0), (1, 0)})] ++
          [(resolveVarName "pop" none,
            Val.int (roundHalfEven (Val.int 7).toRat))]] :=
  ⟨by decide, by decide, by decide, by decide, by decide, by decide, by decide,
   areal_weighted_interpolation_contained ["geometry", "pop"]
     ["rid", "geometry"]
     [("geometry", Val.geom {(0, 0)}), ("pop", Val.int 7)]
     [("rid", Val.str "A"), ("geometry", Val.geom {(0, 0), (1, 0)})]
     "rid" "pop" none {(0, 0)} {(0, 0), (1, 0)} (Val.int 7) (Val.str "A")
     (by decide) (by decide) (by decide) (by decide) (by decide) (by decide)
     (by decide) (by decide) (by decide) (by decide) (by decide) (by decide)
     (by decide) (by decide) (by decide) (by decide)⟩
